import Mathlib

set_option maxHeartbeats 1000000

/-! # Verification of the payment-instruction parser

Shallow embedding of `src/services/payment-processor/parse-instruction.js`.
JavaScript numbers are modelled as exact rationals (IEEE-754 rounding is not
modelled; it is irrelevant to the control flow verified here, which only tests
NaN-ness, sign, integrality and ordering of parsed amounts and balances).
Strings are Lean strings; `toUpperCase` is modelled on the ASCII letters, and
string comparison is lexicographic on scalar values, which agrees with the
JavaScript UTF-16 code-unit order on the Basic Multilingual Plane.
The ambient current date (`new Date().toISOString().slice(0, 10)`) is passed
explicitly as the `today` argument. -/

namespace PaymentParser

/-- A JavaScript number as produced by `Number(string)`: NaN, a signed
infinity, or a finite value (modelled as an exact rational). -/
inductive JSNum where
  | nan : JSNum
  | inf : Bool → JSNum
  | num : ℚ → JSNum
deriving DecidableEq, Repr

/-- An account record from the request payload (`accounts[]` in the schema). -/
structure Account where
  id : String
  balance : ℚ
  currency : String
deriving DecidableEq, Repr

/-- An account snapshot as placed in the response `accounts` list. -/
structure Snapshot where
  id : String
  balance : ℚ
  balance_before : ℚ
  currency : String
deriving DecidableEq, Repr

/-- The mutable accumulator `parsed` of `parseInstruction` (all fields start
out `null` / empty, mirroring lines 112-120 of the source). -/
structure Parsed where
  type : Option String := none
  amount : Option JSNum := none
  currency : Option String := none
  debit_account : Option String := none
  credit_account : Option String := none
  execute_by : Option String := none
  accounts : List Snapshot := []
deriving DecidableEq, Repr

/-- A thrown JavaScript error as observed by the catch block: app errors built
by `throwAppError` carry an `errorCode`; native errors (TypeError) do not. -/
structure JsError where
  errorCode : Option String
  message : String
deriving DecidableEq, Repr

/-- The outcome record returned by `parseInstruction`. `status_code` is an
`Option` because `buildErrorResponse` copies `err.errorCode`, which is
`undefined` for native errors. -/
structure Response where
  type : Option String
  amount : Option JSNum
  currency : Option String
  debit_account : Option String
  credit_account : Option String
  execute_by : Option String
  status : String
  status_code : Option String
  status_reason : String
  accounts : List Snapshot
deriving DecidableEq, Repr

/-- The schema-valid service payload. -/
structure Input where
  accounts : List Account
  instruction : String
deriving DecidableEq, Repr

/-- Modelled from the spec: the `@app/messages/payment` module is not under
src/; the spec only fixes that every outcome carries a human-readable
`status_reason` string for its code, so each code is mapped to itself. -/
def paymentMessage (code : String) : String := code

/-- The error thrown by `throwAppError(PaymentMessages[code], code)`. -/
def appError (code : String) : JsError :=
  { errorCode := some code, message := paymentMessage code }

/-- The native TypeError raised when `isValidAccountId` reads `.length` of an
undefined token; it has no `errorCode` property. -/
def typeError : JsError :=
  { errorCode := none, message := "TypeError: Cannot read properties of undefined" }

/-! ## JavaScript primitives -/

/-- `word.toUpperCase()`, modelled on ASCII letters. -/
def jsToUpper (s : String) : String := ⟨s.data.map Char.toUpper⟩

/-- Truthiness of a possibly-undefined JavaScript string: `undefined` and the
empty string are falsy. -/
def jsStrTruthy : Option String → Bool
  | some s => s ≠ ""
  | none => false

/-- Truthiness of a JavaScript number: `NaN` and `0` are falsy. -/
def jsNumTruthy : JSNum → Bool
  | .nan => false
  | .inf _ => true
  | .num q => q ≠ 0

/-- `x || null` on a string-or-null field (`buildErrorResponse`). -/
def jsOrNullStr (x : Option String) : Option String :=
  match x with
  | some s => if s = "" then none else some s
  | none => none

/-- `x || null` on a number-or-null field (`buildErrorResponse`). -/
def jsOrNullNum (x : Option JSNum) : Option JSNum :=
  match x with
  | some v => if jsNumTruthy v then some v else none
  | none => none

/-- `Number.isNaN(value)`. -/
def jsIsNaN : JSNum → Bool
  | .nan => true
  | _ => false

/-- `value <= 0` (false on NaN, true on negative infinity). -/
def jsLeZero : JSNum → Bool
  | .nan => false
  | .inf neg => neg
  | .num q => q ≤ 0

/-- `Number.isInteger(value) && value > 0` (source lines 23-25). -/
def isPositiveInteger : JSNum → Bool
  | .num q => q.den = 1 && 0 < q
  | _ => false

/-- `balance < amount` with a JavaScript number on the right (false on NaN). -/
def jsLtNum (b : ℚ) : JSNum → Bool
  | .nan => false
  | .inf neg => !neg
  | .num q => b < q

/-- The finite value of a JavaScript number; at every use site an earlier
guard (`AM01`) ensures the number is finite, so the default is unreachable. -/
def jsToQ : JSNum → ℚ
  | .num q => q
  | _ => 0

/-! ## `Number(string)` on strings

String-to-number conversion per the JavaScript `ToNumber` grammar: trim
whitespace; empty means `0`; an optionally signed decimal literal (with
optional fraction and exponent) or `Infinity`; or an unsigned hex / octal /
binary literal; anything else is NaN. Values are exact rationals. -/

/-- Whitespace characters trimmed by `ToNumber` (the common ones: space, tab,
line feed, carriage return, vertical tab, form feed, NBSP, BOM, line and
paragraph separators). -/
def numWhitespace (c : Char) : Bool :=
  c == ' ' || c == '\t' || c == '\n' || c == '\r' ||
  c.toNat == 11 || c.toNat == 12 || c.toNat == 160 || c.toNat == 65279 ||
  c.toNat == 8232 || c.toNat == 8233

/-- Value of a list of decimal digit characters. -/
def digitsToNat (l : List Char) : ℕ :=
  l.foldl (fun a c => a * 10 + (c.toNat - 48)) 0

/-- Hex-digit test. -/
def isHexDigitChar (c : Char) : Bool :=
  c.isDigit || (97 ≤ c.toNat && c.toNat ≤ 102) || (65 ≤ c.toNat && c.toNat ≤ 70)

/-- Octal-digit test. -/
def isOctalDigitChar (c : Char) : Bool :=
  48 ≤ c.toNat && c.toNat ≤ 55

/-- Binary-digit test. -/
def isBinaryDigitChar (c : Char) : Bool :=
  c == '0' || c == '1'

/-- Numeric value of a digit character in bases up to 16. -/
def hexDigitVal (c : Char) : ℕ :=
  if c.isDigit then c.toNat - 48
  else if 97 ≤ c.toNat then c.toNat - 87
  else c.toNat - 55

/-- Value of a digit list in a given base. -/
def baseListVal (base : ℕ) (l : List Char) : ℕ :=
  l.foldl (fun a c => a * base + hexDigitVal c) 0

/-- The exponent part after `e`/`E`: an optionally signed nonempty digit
sequence consuming the rest of the literal. -/
def expPartVal : List Char → Option ℤ
  | [] => none
  | '+' :: r => if r ≠ [] ∧ r.all Char.isDigit then some (digitsToNat r) else none
  | '-' :: r => if r ≠ [] ∧ r.all Char.isDigit then some (-(digitsToNat r : ℤ)) else none
  | r => if r.all Char.isDigit then some (digitsToNat r) else none

/-- Multiply by a signed power of ten. -/
def mulPow10 (q : ℚ) : ℤ → ℚ
  | .ofNat n => q * 10 ^ n
  | .negSucc n => q / 10 ^ (n + 1)

/-- An unsigned decimal literal `digits [. digits] [exp]` or `. digits [exp]`,
consuming the whole list. -/
def decimalBodyVal (l : List Char) : Option ℚ :=
  let ip := l.takeWhile Char.isDigit
  let rest := l.drop ip.length
  match rest with
  | [] => if ip = [] then none else some (digitsToNat ip)
  | '.' :: r2 =>
    let fp := r2.takeWhile Char.isDigit
    let r3 := r2.drop fp.length
    if ip = [] ∧ fp = [] then none
    else
      let base : ℚ := (digitsToNat ip : ℚ) + (digitsToNat fp : ℚ) / ((10 : ℚ) ^ fp.length)
      match r3 with
      | [] => some base
      | c :: r4 => if c = 'e' ∨ c = 'E' then (expPartVal r4).map (mulPow10 base) else none
  | c :: r2 =>
    if (c = 'e' ∨ c = 'E') ∧ ip ≠ [] then
      (expPartVal r2).map (mulPow10 (digitsToNat ip : ℚ))
    else none

/-- An optionally signed decimal literal or `Infinity`. -/
def signedDecimalVal (l : List Char) : JSNum :=
  let sgn := match l with
    | '-' :: r => (true, r)
    | '+' :: r => (false, r)
    | r => (false, r)
  if sgn.2 = "Infinity".data then .inf sgn.1
  else
    match decimalBodyVal sgn.2 with
    | some q => .num (if sgn.1 then -q else q)
    | none => .nan

/-- Lexicographic comparison of character lists by scalar value. -/
def listLtChar : List Char → List Char → Bool
  | [], [] => false
  | [], _ :: _ => true
  | _ :: _, [] => false
  | c :: cs, d :: ds =>
    if c.toNat < d.toNat then true
    else if d.toNat < c.toNat then false
    else listLtChar cs ds

/-- JavaScript string `<`: lexicographic by UTF-16 code unit, which on the
Basic Multilingual Plane is the scalar-value order used here. -/
def jsStrLt (a b : String) : Bool := listLtChar a.data b.data

/-- `Number(s)` for a string `s`. -/
def jsToNumber (s : String) : JSNum :=
  let l := ((s.data.dropWhile numWhitespace).reverse.dropWhile numWhitespace).reverse
  match l with
  | [] => .num 0
  | '0' :: c :: r =>
    if c == 'x' || c == 'X' then
      if r ≠ [] ∧ r.all isHexDigitChar then .num (baseListVal 16 r) else .nan
    else if c == 'o' || c == 'O' then
      if r ≠ [] ∧ r.all isOctalDigitChar then .num (baseListVal 8 r) else .nan
    else if c == 'b' || c == 'B' then
      if r ≠ [] ∧ r.all isBinaryDigitChar then .num (baseListVal 2 r) else .nan
    else signedDecimalVal l
  | _ => signedDecimalVal l

/-! ## The utility functions of the source file -/

/-- Split a character list at separators, dropping empty pieces (the `acc`
argument holds the current piece in reverse). `split(sep).filter(Boolean)`
keeps exactly the maximal runs of non-separator characters. -/
def splitFields (p : Char → Bool) : List Char → List Char → List String
  | [], acc => if acc = [] then [] else [⟨acc.reverse⟩]
  | c :: rest, acc =>
    if p c then
      if acc = [] then splitFields p rest []
      else ⟨acc.reverse⟩ :: splitFields p rest []
    else splitFields p rest (c :: acc)

/-- `splitData` (source lines 19-21): `data.split(' ').filter(Boolean)` —
split on the space character and drop empty substrings. -/
def splitData (s : String) : List String :=
  splitFields (fun c => c == ' ') s.data []

/-- `isValidAccountId` character test (source lines 30-36). -/
def isValidAccountIdChar (c : Char) : Bool :=
  (65 ≤ c.toNat && c.toNat ≤ 90) || (97 ≤ c.toNat && c.toNat ≤ 122) ||
  (48 ≤ c.toNat && c.toNat ≤ 57) || c == '-' || c == '.' || c == '@'

/-- `isValidAccountId` (source lines 27-40). -/
def isValidAccountId (id : String) : Bool :=
  id.data.all isValidAccountIdChar

/-- The keyword normalization of source lines 126-128: uppercase every token
except the account-id positions 5 and 10. -/
def normalizeFrom (i : ℕ) : List String → List String
  | [] => []
  | w :: rest => (if i = 5 ∨ i = 10 then w else jsToUpper w) :: normalizeFrom (i + 1) rest

/-- One pass of the skeleton loop of `isOutOfOrder`: at each position with a
fixed expected word, `keywords[i]?.toUpperCase() !== expected[i]` flags the
instruction as out of order (an absent token also mismatches). -/
def skeletonMismatchFrom (i : ℕ) : List (Option String) → List String → Bool
  | [], _ => false
  | none :: es, kw => skeletonMismatchFrom (i + 1) es kw
  | some e :: es, kw =>
    decide ((kw.get? i).map jsToUpper ≠ some e) || skeletonMismatchFrom (i + 1) es kw

/-- The DEBIT skeleton (source lines 44-55). -/
def debitExpected : List (Option String) :=
  [some "DEBIT", none, none, some "FROM", some "ACCOUNT", none,
   some "FOR", some "CREDIT", some "TO", some "ACCOUNT"]

/-- The CREDIT skeleton (source lines 65-76). -/
def creditExpected : List (Option String) :=
  [some "CREDIT", none, none, some "TO", some "ACCOUNT", none,
   some "FOR", some "DEBIT", some "FROM", some "ACCOUNT"]

/-- `isOutOfOrder` (source lines 42-90): skeleton check for the instruction
type, then the optional-clause check that token 11, when present, is `ON`. -/
def isOutOfOrder (keywords : List String) (type : String) : Bool :=
  (if type == "DEBIT" then skeletonMismatchFrom 0 debitExpected keywords else false) ||
  (if type == "CREDIT" then skeletonMismatchFrom 0 creditExpected keywords else false) ||
  (match keywords.get? 11 with
   | some w => decide (w ≠ "") && decide (jsToUpper w ≠ "ON")
   | none => false)

/-- `buildErrorResponse` (source lines 92-105), including the `|| null`
coercions it applies to each echoed field. -/
def buildErrorResponse (err : JsError) (parsed : Parsed) : Response :=
  { type := jsOrNullStr parsed.type,
    amount := jsOrNullNum parsed.amount,
    currency := jsOrNullStr parsed.currency,
    debit_account := jsOrNullStr parsed.debit_account,
    credit_account := jsOrNullStr parsed.credit_account,
    execute_by := jsOrNullStr parsed.execute_by,
    status := "failed",
    status_reason := err.message,
    status_code := err.errorCode,
    accounts := parsed.accounts }

/-- In-place mutation of a found account object: update the balance of the
first list entry with the given id (`Array.prototype.find` returns the first
match, and the source mutates that object). -/
def updateFirst (accs : List Account) (i : String) (f : ℚ → ℚ) : List Account :=
  match accs with
  | [] => []
  | a :: rest =>
    if a.id = i then { a with balance := f a.balance } :: rest
    else a :: updateFirst rest i f

/-! ## The pipeline -/

/-- The context available after all validations pass (source state just
before line 219): the accumulated `parsed`, the two resolved account
objects, the caller's account list and the parsed amount. -/
structure Ctx where
  parsed : Parsed
  debitAcc : Account
  creditAcc : Account
  accounts : List Account
  amount : JSNum
deriving DecidableEq, Repr

/-- The fresh accumulator of source lines 112-120. -/
def parsedInit : Parsed := {}

/-- The accumulator after field extraction up to the type assignment (source
lines 143-153): account ids from positions 5 and 10, with the roles swapped
for CREDIT instructions (an absent position 10 stays `undefined`). -/
def parsedTyped (keywords : List String) : Parsed :=
  let kw0 := (keywords.get? 0).getD ""
  if kw0 = "DEBIT" then
    { parsedInit with debit_account := keywords.get? 5, credit_account := keywords.get? 10,
                      type := some kw0 }
  else
    { parsedInit with debit_account := keywords.get? 10, credit_account := keywords.get? 5,
                      type := some kw0 }

/-- `Number(keywords[1])` (source line 156). -/
def jsAmount (keywords : List String) : JSNum :=
  jsToNumber ((keywords.get? 1).getD "")

/-- The accumulator after the amount assignment (source line 157); this is
the state visible to the catch block when AM01 or CU02 is thrown (the
currency is only stored after the CU02 check passes). -/
def parsedWithAmount (keywords : List String) : Parsed :=
  { parsedTyped keywords with amount := some (jsAmount keywords) }

/-- The accumulator after the currency assignment (source line 171). -/
def parsedWithCurrency (keywords : List String) : Parsed :=
  { parsedWithAmount keywords with currency := some (jsToUpper ((keywords.get? 2).getD "")) }

/-- The date clause (source lines 179-191): if token 11 is present and equals
`ON`, token 12 must exist, be 10 characters long and have hyphens at offsets
4 and 7, else DT01; on success it becomes `execute_by`. -/
def dateCheck (keywords : List String) : Except (JsError × Parsed) Parsed :=
  match keywords.get? 11 with
  | some k11 =>
    if k11 ≠ "" ∧ jsToUpper k11 = "ON" then
      match keywords.get? 12 with
      | none => .error (appError "DT01", parsedWithCurrency keywords)
      | some ds =>
        if ds = "" then .error (appError "DT01", parsedWithCurrency keywords) else
        if ds.data.length ≠ 10 ∨ ds.data.get? 4 ≠ some '-' ∨ ds.data.get? 7 ≠ some '-' then
          .error (appError "DT01", parsedWithCurrency keywords)
        else .ok { parsedWithCurrency keywords with execute_by := some ds }
    else .ok (parsedWithCurrency keywords)
  | none => .ok (parsedWithCurrency keywords)

/-- The account-resolution block (source lines 194-217): find both accounts,
check currency consistency, non-identity and sufficient funds. -/
def resolveAccounts (accounts : List Account) (parsed4 : Parsed) (amount : JSNum) :
    Except (JsError × Parsed) Ctx :=
  match accounts.find? (fun a => some a.id == parsed4.debit_account),
        accounts.find? (fun a => some a.id == parsed4.credit_account) with
  | some debitAcc, some creditAcc =>
    if debitAcc.currency ≠ creditAcc.currency then .error (appError "CU01", parsed4) else
    if parsed4.currency ≠ some (jsToUpper debitAcc.currency) then
      .error (appError "CU01", parsed4) else
    if parsed4.debit_account = parsed4.credit_account then .error (appError "AC02", parsed4) else
    if jsLtNum debitAcc.balance amount then .error (appError "AC01", parsed4) else
    .ok { parsed := parsed4, debitAcc := debitAcc, creditAcc := creditAcc,
          accounts := accounts, amount := amount }
  | _, _ => .error (appError "AC03", parsed4)

/-- Source lines 130-217 on the normalized keyword list: structural checks,
amount, currency, account-id format, date clause and account resolution,
short-circuiting to the first thrown error (paired with the `parsed` state
visible to the catch block). When the token count is 10 or 11 the skeleton
can pass while `keywords[10]` is undefined; `isValidAccountId(undefined)`
then raises a native TypeError (the `none` branch on `keywords.get? 10`). -/
def validateKeywords (accounts : List Account) (keywords : List String) :
    Except (JsError × Parsed) Ctx :=
  if keywords.length < 8 then .error (appError "SY01", parsedInit) else
  let kw0 := (keywords.get? 0).getD ""
  if kw0 ≠ "DEBIT" ∧ kw0 ≠ "CREDIT" then .error (appError "SY03", parsedInit) else
  if isOutOfOrder keywords kw0 then .error (appError "SY02", parsedInit) else
  let amount := jsAmount keywords
  if jsIsNaN amount || jsLeZero amount || !isPositiveInteger amount then
    .error (appError "AM01", parsedWithAmount keywords) else
  if !((["NGN", "USD", "GBP", "GHS"] : List String).contains
        (jsToUpper ((keywords.get? 2).getD ""))) then
    .error (appError "CU02", parsedWithAmount keywords) else
  if !isValidAccountId ((keywords.get? 5).getD "") then
    .error (appError "AC04", parsedWithCurrency keywords) else
  match keywords.get? 10 with
  | none => .error (typeError, parsedWithCurrency keywords)
  | some k10 =>
  if !isValidAccountId k10 then .error (appError "AC04", parsedWithCurrency keywords) else
  match dateCheck keywords with
  | .error e => .error e
  | .ok parsed4 => resolveAccounts accounts parsed4 amount

/-- Source lines 123-217: normalize the raw tokens and validate. -/
def validateAndResolve (accounts : List Account) (raw : List String) :
    Except (JsError × Parsed) Ctx :=
  validateKeywords accounts (normalizeFrom 0 raw)

/-- Source lines 219-258: decide scheduling against `today`, mutate the two
account objects when executing immediately, and assemble the success
response with the two snapshots. -/
def finishTransfer (ctx : Ctx) (today : String) : Response × List Account :=
  let parsed := ctx.parsed
  let debitBefore := ctx.debitAcc.balance
  let creditBefore := ctx.creditAcc.balance
  let scheduled := jsStrTruthy parsed.execute_by && jsStrLt today (parsed.execute_by.getD "")
  let amt := jsToQ ctx.amount
  let newDebitBal := if scheduled then debitBefore else debitBefore - amt
  let newCreditBal := if scheduled then creditBefore else creditBefore + amt
  let accountsAfter :=
    if scheduled then ctx.accounts
    else
      updateFirst (updateFirst ctx.accounts ctx.debitAcc.id (fun b => b - amt))
        ctx.creditAcc.id (fun b => b + amt)
  let snaps : List Snapshot :=
    [{ id := ctx.debitAcc.id, balance := newDebitBal, balance_before := debitBefore,
       currency := ctx.debitAcc.currency },
     { id := ctx.creditAcc.id, balance := newCreditBal, balance_before := creditBefore,
       currency := ctx.creditAcc.currency }]
  ({ type := parsed.type, amount := parsed.amount, currency := parsed.currency,
     debit_account := parsed.debit_account, credit_account := parsed.credit_account,
     execute_by := parsed.execute_by,
     status := if scheduled then "pending" else "successful",
     status_code := some (if scheduled then "AP02" else "AP00"),
     status_reason := if scheduled then paymentMessage "AP02" else paymentMessage "AP00",
     accounts := snaps }, accountsAfter)

/-- The try block of `parseInstruction` on an already-tokenized instruction. -/
def parseCoreTokens (accounts : List Account) (raw : List String) (today : String) :
    Except (JsError × Parsed) (Response × List Account) :=
  (validateAndResolve accounts raw).map (fun ctx => finishTransfer ctx today)

/-- The best-effort snapshot built in the catch block (source lines 266-283):
balance unchanged, `balance_before == balance`. -/
def resolvedSnapshot (a : Account) : Snapshot :=
  { id := a.id, balance := a.balance, balance_before := a.balance, currency := a.currency }

/-- The account re-resolution of the catch block (source lines 262-284): when
both ids were extracted, look them up again and attach unchanged snapshots,
omitting accounts that are not found. -/
def catchResolve (accounts : List Account) (parsed : Parsed) : Parsed :=
  if jsStrTruthy parsed.debit_account && jsStrTruthy parsed.credit_account then
    let d := accounts.find? (fun a => some a.id == parsed.debit_account)
    let c := accounts.find? (fun a => some a.id == parsed.credit_account)
    { parsed with accounts := (d.map resolvedSnapshot).toList ++ (c.map resolvedSnapshot).toList }
  else parsed

/-- `parseInstruction` (source lines 107-289) on a schema-valid payload, with
the ambient current date passed explicitly. Returns the response together
with the caller's account list as it stands after the call (the observable
in-place mutation). -/
def parseInstruction (data : Input) (today : String) : Response × List Account :=
  match parseCoreTokens data.accounts (splitData data.instruction) today with
  | .ok r => r
  | .error (err, parsed) =>
    (buildErrorResponse err (catchResolve data.accounts parsed), data.accounts)

/-- Word sequence under splitting on all whitespace. Modelled from the spec's
words (tokenizer contract: splits on whitespace) for the refinement
comparison with `splitData`, which the source implements with
`split(' ')`. -/
def specWords (s : String) : List String :=
  splitFields (fun c => c.isWhitespace) s.data []

/-! ## Helper lemmas -/

theorem jsToUpper_DEBIT : jsToUpper "DEBIT" = "DEBIT" := rfl
theorem jsToUpper_FROM : jsToUpper "FROM" = "FROM" := rfl
theorem jsToUpper_ACCOUNT : jsToUpper "ACCOUNT" = "ACCOUNT" := rfl
theorem jsToUpper_FOR : jsToUpper "FOR" = "FOR" := rfl
theorem jsToUpper_CREDIT : jsToUpper "CREDIT" = "CREDIT" := rfl
theorem jsToUpper_TO : jsToUpper "TO" = "TO" := rfl
theorem jsToUpper_ON : jsToUpper "ON" = "ON" := rfl
theorem jsToUpper_NGN : jsToUpper "NGN" = "NGN" := rfl
theorem jsToUpper_USD : jsToUpper "USD" = "USD" := rfl
theorem jsToUpper_GBP : jsToUpper "GBP" = "GBP" := rfl
theorem jsToUpper_GHS : jsToUpper "GHS" = "GHS" := rfl

theorem vr_debit_shape
    (accs : List Account) (amtTok cur d c : String) (q : ℚ) (dAcc cAcc : Account)
    (hamtU : jsToUpper amtTok = amtTok)
    (hamt : jsToNumber amtTok = JSNum.num q)
    (hden : q.den = 1) (hpos : 0 < q)
    (hsup : cur = "NGN" ∨ cur = "USD" ∨ cur = "GBP" ∨ cur = "GHS")
    (hdid : isValidAccountId d = true) (hcid : isValidAccountId c = true)
    (hfd : accs.find? (fun a => a.id == d) = some dAcc)
    (hfc : accs.find? (fun a => a.id == c) = some cAcc)
    (hdcur : dAcc.currency = cur) (hccur : cAcc.currency = cur)
    (hne : d ≠ c)
    (hbal : q ≤ dAcc.balance) :
    validateAndResolve accs ["DEBIT", amtTok, cur, "FROM", "ACCOUNT", d, "FOR", "CREDIT", "TO", "ACCOUNT", c] =
      .ok { parsed := { type := some "DEBIT", amount := some (JSNum.num q), currency := some cur,
                        debit_account := some d, credit_account := some c, execute_by := none,
                        accounts := [] },
            debitAcc := dAcc, creditAcc := cAcc, accounts := accs, amount := JSNum.num q } := by
  rcases hsup with h | h | h | h <;> subst h <;>
  simp [validateAndResolve, validateKeywords, normalizeFrom, isOutOfOrder, skeletonMismatchFrom,
    debitExpected, creditExpected, parsedInit, parsedTyped, parsedWithAmount, parsedWithCurrency,
    dateCheck, resolveAccounts, jsAmount,
    jsToUpper_DEBIT, jsToUpper_FROM, jsToUpper_ACCOUNT,
    jsToUpper_FOR, jsToUpper_CREDIT, jsToUpper_TO, jsToUpper_NGN, jsToUpper_USD, jsToUpper_GBP,
    jsToUpper_GHS, hamtU, hamt, hden, hpos,
    not_le.mpr hpos, not_lt.mpr hbal, jsIsNaN, jsLeZero, isPositiveInteger, jsLtNum,
    hdid, hcid, hfd, hfc, hdcur, hccur, hne]

theorem parsedTyped_execute_by (keywords : List String) :
    (parsedTyped keywords).execute_by = none := by
  simp only [parsedTyped, parsedInit]
  split <;> rfl

theorem parsedWithCurrency_execute_by (keywords : List String) :
    (parsedWithCurrency keywords).execute_by = none := by
  simp only [parsedWithCurrency, parsedWithAmount]
  exact parsedTyped_execute_by keywords

theorem resolveAccounts_ok_inv (accounts : List Account) (p : Parsed) (amt : JSNum) (ctx : Ctx)
    (h : resolveAccounts accounts p amt = .ok ctx) :
    ctx.accounts = accounts ∧ ctx.parsed = p ∧ ctx.amount = amt := by
  unfold resolveAccounts at h
  split at h
  next dAcc cAcc hfd hfc =>
    by_cases h1 : dAcc.currency ≠ cAcc.currency
    · rw [if_pos h1] at h; cases h
    · rw [if_neg h1] at h
      by_cases h2 : p.currency ≠ some (jsToUpper dAcc.currency)
      · rw [if_pos h2] at h; cases h
      · rw [if_neg h2] at h
        by_cases h3 : p.debit_account = p.credit_account
        · rw [if_pos h3] at h; cases h
        · rw [if_neg h3] at h
          by_cases h4 : jsLtNum dAcc.balance amt = true
          · rw [if_pos h4] at h; cases h
          · rw [if_neg h4] at h
            cases h
            exact ⟨rfl, rfl, rfl⟩
  next => cases h

theorem dateCheck_execute_by (keywords : List String) (p : Parsed)
    (h : dateCheck keywords = .ok p) :
    p.execute_by = none ∨ ∃ ds, p.execute_by = some ds ∧ ds ≠ "" := by
  unfold dateCheck at h
  split at h
  next k11 hk =>
    by_cases hon : k11 ≠ "" ∧ jsToUpper k11 = "ON"
    · rw [if_pos hon] at h
      split at h
      next => cases h
      next ds hds =>
        by_cases he : ds = ""
        · rw [if_pos he] at h; cases h
        · rw [if_neg he] at h
          by_cases hs : ds.data.length ≠ 10 ∨ ds.data.get? 4 ≠ some '-' ∨ ds.data.get? 7 ≠ some '-'
          · rw [if_pos hs] at h; cases h
          · rw [if_neg hs] at h
            cases h
            exact Or.inr ⟨ds, rfl, he⟩
    · rw [if_neg hon] at h
      cases h
      exact Or.inl (parsedWithCurrency_execute_by keywords)
  next =>
    cases h
    exact Or.inl (parsedWithCurrency_execute_by keywords)

theorem validateKeywords_ok_inv (accounts : List Account) (keywords : List String) (ctx : Ctx)
    (h : validateKeywords accounts keywords = .ok ctx) :
    ctx.accounts = accounts ∧ isPositiveInteger ctx.amount = true ∧
    (ctx.parsed.execute_by = none ∨ ∃ ds, ctx.parsed.execute_by = some ds ∧ ds ≠ "") := by
  simp only [validateKeywords] at h
  by_cases h1 : keywords.length < 8
  · rw [if_pos h1] at h; cases h
  · rw [if_neg h1] at h
    by_cases h2 : (keywords.get? 0).getD "" ≠ "DEBIT" ∧ (keywords.get? 0).getD "" ≠ "CREDIT"
    · rw [if_pos h2] at h; cases h
    · rw [if_neg h2] at h
      by_cases h3 : isOutOfOrder keywords ((keywords.get? 0).getD "") = true
      · rw [if_pos h3] at h; cases h
      · rw [if_neg h3] at h
        by_cases h4 : (jsIsNaN (jsAmount keywords) || jsLeZero (jsAmount keywords) ||
            !isPositiveInteger (jsAmount keywords)) = true
        · rw [if_pos h4] at h; cases h
        · rw [if_neg h4] at h
          by_cases h5 : (!((["NGN", "USD", "GBP", "GHS"] : List String).contains
              (jsToUpper ((keywords.get? 2).getD "")))) = true
          · rw [if_pos h5] at h; cases h
          · rw [if_neg h5] at h
            by_cases h6 : (!isValidAccountId ((keywords.get? 5).getD "")) = true
            · rw [if_pos h6] at h; cases h
            · rw [if_neg h6] at h
              split at h
              next => cases h
              next k10 hk10 =>
                by_cases h7 : (!isValidAccountId k10) = true
                · rw [if_pos h7] at h; cases h
                · rw [if_neg h7] at h
                  split at h
                  next => cases h
                  next parsed4 hdate =>
                    obtain ⟨hacc, hparsed, hamt⟩ := resolveAccounts_ok_inv _ _ _ _ h
                    refine ⟨hacc, ?_, ?_⟩
                    · rw [hamt]
                      cases hpi : isPositiveInteger (jsAmount keywords) with
                      | true => rfl
                      | false => exact absurd (by simp [hpi]) h4
                    · rw [hparsed]
                      exact dateCheck_execute_by _ _ hdate

theorem catchResolve_fields (accounts : List Account) (p : Parsed) :
    (catchResolve accounts p).type = p.type ∧
    (catchResolve accounts p).amount = p.amount ∧
    (catchResolve accounts p).currency = p.currency ∧
    (catchResolve accounts p).debit_account = p.debit_account ∧
    (catchResolve accounts p).credit_account = p.credit_account ∧
    (catchResolve accounts p).execute_by = p.execute_by := by
  unfold catchResolve
  split <;> exact ⟨rfl, rfl, rfl, rfl, rfl, rfl⟩

theorem resolveAccounts_error_inv (accounts : List Account) (p : Parsed) (amt : JSNum)
    (err : JsError) (q : Parsed)
    (h : resolveAccounts accounts p amt = .error (err, q)) :
    (err = appError "AC03" ∨ err = appError "CU01" ∨ err = appError "AC02" ∨
      err = appError "AC01") ∧ q = p := by
  unfold resolveAccounts at h
  split at h
  next dAcc cAcc hfd hfc =>
    by_cases h1 : dAcc.currency ≠ cAcc.currency
    · rw [if_pos h1] at h; cases h; exact ⟨Or.inr (Or.inl rfl), rfl⟩
    · rw [if_neg h1] at h
      by_cases h2 : p.currency ≠ some (jsToUpper dAcc.currency)
      · rw [if_pos h2] at h; cases h; exact ⟨Or.inr (Or.inl rfl), rfl⟩
      · rw [if_neg h2] at h
        by_cases h3 : p.debit_account = p.credit_account
        · rw [if_pos h3] at h; cases h; exact ⟨Or.inr (Or.inr (Or.inl rfl)), rfl⟩
        · rw [if_neg h3] at h
          by_cases h4 : jsLtNum dAcc.balance amt = true
          · rw [if_pos h4] at h; cases h; exact ⟨Or.inr (Or.inr (Or.inr rfl)), rfl⟩
          · rw [if_neg h4] at h; cases h
  next => cases h; exact ⟨Or.inl rfl, rfl⟩

theorem dateCheck_error_inv (keywords : List String) (e : JsError × Parsed)
    (h : dateCheck keywords = .error e) :
    e = (appError "DT01", parsedWithCurrency keywords) := by
  unfold dateCheck at h
  split at h
  next k11 hk =>
    by_cases hon : k11 ≠ "" ∧ jsToUpper k11 = "ON"
    · rw [if_pos hon] at h
      split at h
      next => cases h; rfl
      next ds hds =>
        by_cases he : ds = ""
        · rw [if_pos he] at h; cases h; rfl
        · rw [if_neg he] at h
          by_cases hs : ds.data.length ≠ 10 ∨ ds.data.get? 4 ≠ some '-' ∨ ds.data.get? 7 ≠ some '-'
          · rw [if_pos hs] at h; cases h; rfl
          · rw [if_neg hs] at h; cases h
    · rw [if_neg hon] at h; cases h
  next => cases h

theorem validateKeywords_error_inv (accounts : List Account) (keywords : List String)
    (err : JsError) (p : Parsed)
    (h : validateKeywords accounts keywords = .error (err, p)) :
    ((err = appError "SY01" ∨ err = appError "SY02" ∨ err = appError "SY03") ∧
        p = parsedInit) ∨
    ((err = appError "AM01" ∨ err = appError "CU02") ∧ p = parsedWithAmount keywords) ∨
    ((err = appError "AC04" ∨ err = typeError ∨ err = appError "DT01") ∧
        p = parsedWithCurrency keywords) ∨
    ((err = appError "AC03" ∨ err = appError "CU01" ∨ err = appError "AC02" ∨
        err = appError "AC01") ∧ dateCheck keywords = .ok p) := by
  simp only [validateKeywords] at h
  by_cases h1 : keywords.length < 8
  · rw [if_pos h1] at h; cases h; exact Or.inl ⟨Or.inl rfl, rfl⟩
  · rw [if_neg h1] at h
    by_cases h2 : (keywords.get? 0).getD "" ≠ "DEBIT" ∧ (keywords.get? 0).getD "" ≠ "CREDIT"
    · rw [if_pos h2] at h; cases h; exact Or.inl ⟨Or.inr (Or.inr rfl), rfl⟩
    · rw [if_neg h2] at h
      by_cases h3 : isOutOfOrder keywords ((keywords.get? 0).getD "") = true
      · rw [if_pos h3] at h; cases h; exact Or.inl ⟨Or.inr (Or.inl rfl), rfl⟩
      · rw [if_neg h3] at h
        by_cases h4 : (jsIsNaN (jsAmount keywords) || jsLeZero (jsAmount keywords) ||
            !isPositiveInteger (jsAmount keywords)) = true
        · rw [if_pos h4] at h; cases h; exact Or.inr (Or.inl ⟨Or.inl rfl, rfl⟩)
        · rw [if_neg h4] at h
          by_cases h5 : (!((["NGN", "USD", "GBP", "GHS"] : List String).contains
              (jsToUpper ((keywords.get? 2).getD "")))) = true
          · rw [if_pos h5] at h; cases h; exact Or.inr (Or.inl ⟨Or.inr rfl, rfl⟩)
          · rw [if_neg h5] at h
            by_cases h6 : (!isValidAccountId ((keywords.get? 5).getD "")) = true
            · rw [if_pos h6] at h; cases h
              exact Or.inr (Or.inr (Or.inl ⟨Or.inl rfl, rfl⟩))
            · rw [if_neg h6] at h
              split at h
              next =>
                cases h
                exact Or.inr (Or.inr (Or.inl ⟨Or.inr (Or.inl rfl), rfl⟩))
              next k10 hk10 =>
                by_cases h7 : (!isValidAccountId k10) = true
                · rw [if_pos h7] at h; cases h
                  exact Or.inr (Or.inr (Or.inl ⟨Or.inl rfl, rfl⟩))
                · rw [if_neg h7] at h
                  split at h
                  next e hdate =>
                    cases h
                    have he := dateCheck_error_inv keywords _ hdate
                    cases he
                    exact Or.inr (Or.inr (Or.inl ⟨Or.inr (Or.inr rfl), rfl⟩))
                  next parsed4 hdate =>
                    obtain ⟨hcodes, hq⟩ := resolveAccounts_error_inv _ _ _ _ _ h
                    exact Or.inr (Or.inr (Or.inr ⟨hcodes, by rw [hq]; exact hdate⟩))

theorem splitFields_ne_empty (p : Char → Bool) (l : List Char) :
    ∀ (acc : List Char) (w : String), w ∈ splitFields p l acc → w ≠ "" := by
  induction l with
  | nil =>
    intro acc w hw
    unfold splitFields at hw
    by_cases hacc : acc = []
    · rw [if_pos hacc] at hw; cases hw
    · rw [if_neg hacc] at hw
      rcases List.mem_singleton.mp hw with rfl
      intro he
      apply hacc
      have hd := congrArg String.data he
      simpa using hd
  | cons c rest ih =>
    intro acc w hw
    unfold splitFields at hw
    by_cases hc : p c = true
    · rw [if_pos hc] at hw
      by_cases hacc : acc = []
      · rw [if_pos hacc] at hw
        exact ih [] w hw
      · rw [if_neg hacc] at hw
        rcases List.mem_cons.mp hw with rfl | hmem
        · intro he
          apply hacc
          have hd := congrArg String.data he
          simpa using hd
        · exact ih [] w hmem
    · rw [if_neg hc] at hw
      exact ih (c :: acc) w hw

theorem splitData_ne_empty (s : String) : ∀ w ∈ splitData s, w ≠ "" :=
  fun w hw => splitFields_ne_empty _ _ _ w hw

theorem jsToUpper_ne_empty (w : String) (h : w ≠ "") : jsToUpper w ≠ "" := by
  intro he
  apply h
  have hd := congrArg String.data he
  simp only [jsToUpper] at hd
  cases w with
  | mk data =>
    simp only [String.data] at hd ⊢
    cases data with
    | nil => rfl
    | cons a l => cases hd

theorem normalizeFrom_mem (raw : List String) :
    ∀ (i : ℕ) (w : String), w ∈ normalizeFrom i raw →
      ∃ v ∈ raw, w = v ∨ w = jsToUpper v := by
  induction raw with
  | nil => intro i w hw; cases hw
  | cons a rest ih =>
    intro i w hw
    unfold normalizeFrom at hw
    rcases List.mem_cons.mp hw with rfl | hmem
    · refine ⟨a, List.mem_cons_self a rest, ?_⟩
      split
      · exact Or.inl rfl
      · exact Or.inr rfl
    · obtain ⟨v, hv, hc⟩ := ih (i + 1) w hmem
      exact ⟨v, List.mem_cons_of_mem a hv, hc⟩

theorem normalized_token_ne_empty (s : String) (i : ℕ) (w : String)
    (h : (normalizeFrom 0 (splitData s)).get? i = some w) : w ≠ "" := by
  have hmem : w ∈ normalizeFrom 0 (splitData s) := List.get?_mem h
  obtain ⟨v, hv, hc⟩ := normalizeFrom_mem (splitData s) 0 w hmem
  have hvne : v ≠ "" := splitData_ne_empty s v hv
  rcases hc with rfl | rfl
  · exact hvne
  · exact jsToUpper_ne_empty v hvne

theorem dateCheck_missing (keywords : List String) (t11 : String)
    (ht11 : keywords.get? 11 = some t11) (ht11ne : t11 ≠ "")
    (ht11on : jsToUpper t11 = "ON") (h12 : keywords.get? 12 = none) :
    dateCheck keywords = .error (appError "DT01", parsedWithCurrency keywords) := by
  unfold dateCheck
  split
  next k11 hk11 =>
    injection ht11.symm.trans hk11 with hEq
    subst hEq
    rw [if_pos ⟨ht11ne, ht11on⟩]
    split
    next => rfl
    next ds hds => rw [h12] at hds; cases hds
  next hk11 => rw [ht11] at hk11; cases hk11

theorem validateKeywords_missing_date (accounts : List Account) (keywords : List String)
    (k10 t11 : String)
    (h1 : ¬keywords.length < 8)
    (h2 : ¬((keywords.get? 0).getD "" ≠ "DEBIT" ∧ (keywords.get? 0).getD "" ≠ "CREDIT"))
    (h3 : isOutOfOrder keywords ((keywords.get? 0).getD "") = false)
    (h4 : (jsIsNaN (jsAmount keywords) || jsLeZero (jsAmount keywords) ||
        !isPositiveInteger (jsAmount keywords)) = false)
    (h5 : ((["NGN", "USD", "GBP", "GHS"] : List String).contains
        (jsToUpper ((keywords.get? 2).getD ""))) = true)
    (h6 : isValidAccountId ((keywords.get? 5).getD "") = true)
    (hk10 : keywords.get? 10 = some k10)
    (hk10v : isValidAccountId k10 = true)
    (ht11 : keywords.get? 11 = some t11) (ht11ne : t11 ≠ "")
    (ht11on : jsToUpper t11 = "ON")
    (h12 : keywords.get? 12 = none) :
    validateKeywords accounts keywords =
      .error (appError "DT01", parsedWithCurrency keywords) := by
  simp only [validateKeywords]
  rw [if_neg h1, if_neg h2]
  rw [if_neg (by rw [h3]; simp)]
  rw [if_neg (by rw [h4]; simp)]
  rw [if_neg (by rw [h5]; simp)]
  rw [if_neg (by rw [h6]; simp)]
  split
  next hnone => rw [hk10] at hnone; cases hnone
  next k10x hk10x =>
    injection hk10.symm.trans hk10x with hEq
    subst hEq
    rw [if_neg (by rw [hk10v]; simp)]
    split
    next e hdc =>
      rw [dateCheck_missing keywords t11 ht11 ht11ne ht11on h12] at hdc
      cases hdc
      rfl
    next parsed4 hdc =>
      rw [dateCheck_missing keywords t11 ht11 ht11ne ht11on h12] at hdc
      cases hdc

/-! ## Claim theorems -/

theorem parseInstruction_ok (data : Input) (today : String) (ctx : Ctx)
    (hvr : validateAndResolve data.accounts (splitData data.instruction) = .ok ctx) :
    parseInstruction data today = finishTransfer ctx today := by
  unfold parseInstruction parseCoreTokens
  rw [hvr]
  rfl

theorem parseInstruction_error (data : Input) (today : String) (err : JsError) (parsed : Parsed)
    (hvr : validateAndResolve data.accounts (splitData data.instruction) = .error (err, parsed)) :
    parseInstruction data today = (buildErrorResponse err (catchResolve data.accounts parsed), data.accounts) := by
  unfold parseInstruction parseCoreTokens
  rw [hvr]
  rfl

theorem finishTransfer_scheduled (ctx : Ctx) (today : String)
    (hs : (jsStrTruthy ctx.parsed.execute_by &&
      jsStrLt today (ctx.parsed.execute_by.getD "")) = true) :
    finishTransfer ctx today =
      ({ type := ctx.parsed.type, amount := ctx.parsed.amount, currency := ctx.parsed.currency,
         debit_account := ctx.parsed.debit_account, credit_account := ctx.parsed.credit_account,
         execute_by := ctx.parsed.execute_by, status := "pending", status_code := some "AP02",
         status_reason := paymentMessage "AP02",
         accounts :=
           [{ id := ctx.debitAcc.id, balance := ctx.debitAcc.balance,
              balance_before := ctx.debitAcc.balance, currency := ctx.debitAcc.currency },
            { id := ctx.creditAcc.id, balance := ctx.creditAcc.balance,
              balance_before := ctx.creditAcc.balance, currency := ctx.creditAcc.currency }] },
       ctx.accounts) := by
  simp only [finishTransfer]
  rw [hs]
  rfl

theorem finishTransfer_immediate (ctx : Ctx) (today : String)
    (hs : (jsStrTruthy ctx.parsed.execute_by &&
      jsStrLt today (ctx.parsed.execute_by.getD "")) = false) :
    finishTransfer ctx today =
      ({ type := ctx.parsed.type, amount := ctx.parsed.amount, currency := ctx.parsed.currency,
         debit_account := ctx.parsed.debit_account, credit_account := ctx.parsed.credit_account,
         execute_by := ctx.parsed.execute_by, status := "successful", status_code := some "AP00",
         status_reason := paymentMessage "AP00",
         accounts :=
           [{ id := ctx.debitAcc.id, balance := ctx.debitAcc.balance - jsToQ ctx.amount,
              balance_before := ctx.debitAcc.balance, currency := ctx.debitAcc.currency },
            { id := ctx.creditAcc.id, balance := ctx.creditAcc.balance + jsToQ ctx.amount,
              balance_before := ctx.creditAcc.balance, currency := ctx.creditAcc.currency }] },
       updateFirst (updateFirst ctx.accounts ctx.debitAcc.id (fun b => b - jsToQ ctx.amount))
         ctx.creditAcc.id (fun b => b + jsToQ ctx.amount)) := by
  simp only [finishTransfer]
  rw [hs]
  rfl

/-- Claim C3: account balances are mutated at most once per call and only when
the returned status is successful; whenever the status is pending or failed,
the supplied account set is returned exactly as it came in (no partial
application), and on success the only change is the single debit/credit pair
of updates. -/
theorem balances_mutated_only_on_success (data : Input) (today : String) :
    ((parseInstruction data today).1.status = "pending" ∨
        (parseInstruction data today).1.status = "failed" →
      (parseInstruction data today).2 = data.accounts) ∧
    ((parseInstruction data today).1.status = "successful" →
      ∃ debitId creditId amt, 0 < amt ∧
        (parseInstruction data today).2 =
          updateFirst (updateFirst data.accounts debitId (fun b => b - amt))
            creditId (fun b => b + amt)) := by
  cases hvr : validateAndResolve data.accounts (splitData data.instruction) with
  | error e =>
    obtain ⟨err, parsed⟩ := e
    rw [parseInstruction_error data today err parsed hvr]
    constructor
    · intro _; rfl
    · intro hst
      simp [buildErrorResponse] at hst
  | ok ctx =>
    obtain ⟨hacc, hpi, _⟩ := validateKeywords_ok_inv _ _ _ hvr
    rw [parseInstruction_ok data today ctx hvr]
    cases hs : (jsStrTruthy ctx.parsed.execute_by &&
        jsStrLt today (ctx.parsed.execute_by.getD "")) with
    | true =>
      rw [finishTransfer_scheduled ctx today hs]
      constructor
      · intro _; exact hacc
      · intro hst; simp at hst
    | false =>
      rw [finishTransfer_immediate ctx today hs]
      constructor
      · intro hps; rcases hps with hps | hps <;> simp at hps
      · intro _
        obtain ⟨qq, hq, hqpos⟩ : ∃ qq, ctx.amount = .num qq ∧ 0 < qq := by
          cases ham : ctx.amount with
          | num q =>
            rw [ham] at hpi
            simp only [isPositiveInteger, Bool.and_eq_true, decide_eq_true_eq] at hpi
            exact ⟨q, rfl, hpi.2⟩
          | nan => rw [ham] at hpi; cases hpi
          | inf b => rw [ham] at hpi; cases hpi
        refine ⟨ctx.debitAcc.id, ctx.creditAcc.id, jsToQ ctx.amount, ?_, ?_⟩
        · rw [hq]; simpa [jsToQ] using hqpos
        · rw [hacc]

/-- Claim C9: for a failing instruction the whole outcome, in particular its
status_code, is a deterministic function of the instruction string and the
account set alone — running with any other current date gives the identical
result. -/
theorem failed_outcome_date_independent (data : Input) (t1 t2 : String)
    (h : (parseInstruction data t1).1.status = "failed") :
    parseInstruction data t2 = parseInstruction data t1 := by
  cases hvr : validateAndResolve data.accounts (splitData data.instruction) with
  | error e =>
    obtain ⟨err, parsed⟩ := e
    rw [parseInstruction_error data t1 err parsed hvr, parseInstruction_error data t2 err parsed hvr]
  | ok ctx =>
    exfalso
    rw [parseInstruction_ok data t1 ctx hvr] at h
    cases hs : (jsStrTruthy ctx.parsed.execute_by &&
        jsStrLt t1 (ctx.parsed.execute_by.getD "")) with
    | true =>
      rw [finishTransfer_scheduled ctx t1 hs] at h
      simp at h
    | false =>
      rw [finishTransfer_immediate ctx t1 hs] at h
      simp at h

/-- Claim C2: for an instruction that passes all validations and carries an ON
date, a date lexicographically greater than today gives status pending with
code AP02 and no balance mutation, while a date less than or equal to today
executes immediately: status successful, code AP00, and the debit/credit
mutation is applied. -/
theorem on_date_schedules_or_executes (data : Input) (today ds : String) (ctx : Ctx)
    (hvr : validateAndResolve data.accounts (splitData data.instruction) = .ok ctx)
    (hex : ctx.parsed.execute_by = some ds) :
    (jsStrLt today ds = true →
      (parseInstruction data today).1.status = "pending" ∧
      (parseInstruction data today).1.status_code = some "AP02" ∧
      (parseInstruction data today).2 = data.accounts) ∧
    (jsStrLt today ds = false →
      (parseInstruction data today).1.status = "successful" ∧
      (parseInstruction data today).1.status_code = some "AP00" ∧
      (parseInstruction data today).2 =
        updateFirst (updateFirst data.accounts ctx.debitAcc.id (fun b => b - jsToQ ctx.amount))
          ctx.creditAcc.id (fun b => b + jsToQ ctx.amount)) := by
  obtain ⟨hacc, _, hdate⟩ := validateKeywords_ok_inv _ _ _ hvr
  have hds : ds ≠ "" := by
    rcases hdate with h0 | ⟨ds', h1, h2⟩
    · rw [hex] at h0; cases h0
    · rw [hex] at h1; cases h1; exact h2
  rw [parseInstruction_ok data today ctx hvr]
  constructor
  · intro hlt
    have hs : (jsStrTruthy ctx.parsed.execute_by &&
        jsStrLt today (ctx.parsed.execute_by.getD "")) = true := by
      rw [hex]; simp [jsStrTruthy, hds, hlt]
    rw [finishTransfer_scheduled ctx today hs]
    exact ⟨rfl, rfl, hacc⟩
  · intro hge
    have hs : (jsStrTruthy ctx.parsed.execute_by &&
        jsStrLt today (ctx.parsed.execute_by.getD "")) = false := by
      rw [hex]; simp [jsStrTruthy, hds, hge]
    rw [finishTransfer_immediate ctx today hs]
    exact ⟨rfl, rfl, by rw [hacc]⟩

/-- Claim C1: a well-formed DEBIT instruction with no ON clause, stated
currency equal to both accounts' currency, and sufficient debit balance
returns status successful with code AP00, and the returned snapshots show the
debit account at balance_before minus the amount and the credit account at
balance_before plus the amount. -/
theorem debit_no_on_clause_success
    (accs : List Account) (s today amtTok cur d c : String) (q : ℚ) (dAcc cAcc : Account)
    (hsplit : splitData s =
      ["DEBIT", amtTok, cur, "FROM", "ACCOUNT", d, "FOR", "CREDIT", "TO", "ACCOUNT", c])
    (hamtU : jsToUpper amtTok = amtTok)
    (hamt : jsToNumber amtTok = JSNum.num q)
    (hden : q.den = 1) (hpos : 0 < q)
    (hsup : cur = "NGN" ∨ cur = "USD" ∨ cur = "GBP" ∨ cur = "GHS")
    (hdid : isValidAccountId d = true) (hcid : isValidAccountId c = true)
    (hfd : accs.find? (fun a => a.id == d) = some dAcc)
    (hfc : accs.find? (fun a => a.id == c) = some cAcc)
    (hdcur : dAcc.currency = cur) (hccur : cAcc.currency = cur)
    (hne : d ≠ c)
    (hbal : q ≤ dAcc.balance) :
    (parseInstruction ⟨accs, s⟩ today).1.status = "successful" ∧
    (parseInstruction ⟨accs, s⟩ today).1.status_code = some "AP00" ∧
    (parseInstruction ⟨accs, s⟩ today).1.accounts =
      [{ id := dAcc.id, balance := dAcc.balance - q, balance_before := dAcc.balance,
         currency := dAcc.currency },
       { id := cAcc.id, balance := cAcc.balance + q, balance_before := cAcc.balance,
         currency := cAcc.currency }] := by
  have hvr : validateAndResolve (Input.mk accs s).accounts
      (splitData (Input.mk accs s).instruction) =
      .ok { parsed := { type := some "DEBIT", amount := some (JSNum.num q), currency := some cur,
                        debit_account := some d, credit_account := some c, execute_by := none,
                        accounts := [] },
            debitAcc := dAcc, creditAcc := cAcc, accounts := accs, amount := JSNum.num q } := by
    show validateAndResolve accs (splitData s) = _
    rw [hsplit]
    exact vr_debit_shape accs amtTok cur d c q dAcc cAcc hamtU hamt hden hpos hsup hdid hcid
      hfd hfc hdcur hccur hne hbal
  rw [parseInstruction_ok ⟨accs, s⟩ today _ hvr]
  rw [finishTransfer_immediate _ today (by simp [jsStrTruthy])]
  exact ⟨rfl, rfl, rfl⟩

/-- Claim C10: for every instruction that passes the structural, amount,
currency and account-id-format checks (of either DEBIT or CREDIT shape, any
keyword casing) and whose token at index 11 is ON case-insensitively, the
absence of a token at index 12 yields status failed with status_code DT01 —
the missing date is reported as an invalid date format, not as a structural
error — and no balance is mutated. The hypotheses are exactly the source's
checks on the normalized keyword list. -/
theorem missing_date_token_fails (data : Input) (today : String) (k10 t11 : String)
    (h1 : ¬(normalizeFrom 0 (splitData data.instruction)).length < 8)
    (h2 : ¬(((normalizeFrom 0 (splitData data.instruction)).get? 0).getD "" ≠ "DEBIT" ∧
        ((normalizeFrom 0 (splitData data.instruction)).get? 0).getD "" ≠ "CREDIT"))
    (h3 : isOutOfOrder (normalizeFrom 0 (splitData data.instruction))
        (((normalizeFrom 0 (splitData data.instruction)).get? 0).getD "") = false)
    (h4 : (jsIsNaN (jsAmount (normalizeFrom 0 (splitData data.instruction))) ||
        jsLeZero (jsAmount (normalizeFrom 0 (splitData data.instruction))) ||
        !isPositiveInteger (jsAmount (normalizeFrom 0 (splitData data.instruction)))) = false)
    (h5 : ((["NGN", "USD", "GBP", "GHS"] : List String).contains
        (jsToUpper (((normalizeFrom 0 (splitData data.instruction)).get? 2).getD ""))) = true)
    (h6 : isValidAccountId
        (((normalizeFrom 0 (splitData data.instruction)).get? 5).getD "") = true)
    (hk10 : (normalizeFrom 0 (splitData data.instruction)).get? 10 = some k10)
    (hk10v : isValidAccountId k10 = true)
    (ht11 : (normalizeFrom 0 (splitData data.instruction)).get? 11 = some t11)
    (ht11on : jsToUpper t11 = "ON")
    (h12 : (normalizeFrom 0 (splitData data.instruction)).get? 12 = none) :
    (parseInstruction data today).1.status = "failed" ∧
    (parseInstruction data today).1.status_code = some "DT01" ∧
    (parseInstruction data today).2 = data.accounts := by
  have ht11ne : t11 ≠ "" := normalized_token_ne_empty data.instruction 11 t11 ht11
  have hvr : validateAndResolve data.accounts (splitData data.instruction) =
      .error (appError "DT01",
        parsedWithCurrency (normalizeFrom 0 (splitData data.instruction))) :=
    validateKeywords_missing_date data.accounts _ k10 t11 h1 h2 h3 h4 h5 h6 hk10 hk10v
      ht11 ht11ne ht11on h12
  rw [parseInstruction_error data today _ _ hvr]
  exact ⟨rfl, rfl, rfl⟩

/-- Claim C1 witness: the spec's worked example — DEBIT 2000 NGN from ACC-001
(balance 5000) to ACC-002 (balance 1500) yields AP00 with balances 3000 and
3500. -/
theorem debit_no_on_clause_success_witness :
    (parseInstruction ⟨[⟨"ACC-001", 5000, "NGN"⟩, ⟨"ACC-002", 1500, "NGN"⟩], "DEBIT 2000 NGN FROM ACCOUNT ACC-001 FOR CREDIT TO ACCOUNT ACC-002"⟩ "2025-01-01").1.status = "successful" ∧
    (parseInstruction ⟨[⟨"ACC-001", 5000, "NGN"⟩, ⟨"ACC-002", 1500, "NGN"⟩], "DEBIT 2000 NGN FROM ACCOUNT ACC-001 FOR CREDIT TO ACCOUNT ACC-002"⟩ "2025-01-01").1.status_code = some "AP00" ∧
    (parseInstruction ⟨[⟨"ACC-001", 5000, "NGN"⟩, ⟨"ACC-002", 1500, "NGN"⟩], "DEBIT 2000 NGN FROM ACCOUNT ACC-001 FOR CREDIT TO ACCOUNT ACC-002"⟩ "2025-01-01").1.accounts =
      [⟨"ACC-001", 3000, 5000, "NGN"⟩, ⟨"ACC-002", 3500, 1500, "NGN"⟩] := by
  have h := debit_no_on_clause_success
    [⟨"ACC-001", 5000, "NGN"⟩, ⟨"ACC-002", 1500, "NGN"⟩]
    "DEBIT 2000 NGN FROM ACCOUNT ACC-001 FOR CREDIT TO ACCOUNT ACC-002" "2025-01-01"
    "2000" "NGN" "ACC-001" "ACC-002" 2000 ⟨"ACC-001", 5000, "NGN"⟩ ⟨"ACC-002", 1500, "NGN"⟩
    (by decide) (by decide) (by decide) (by decide) (by decide) (Or.inl rfl)
    (by decide) (by decide) (by decide) (by decide) rfl rfl (by decide) (by decide)
  exact ⟨h.1, h.2.1, by rw [h.2.2]; norm_num⟩

/-- Claim C2 witness: a validated instruction dated 2030-05-05 run on
2025-01-01 is pending with code AP02 and unchanged balances. -/
theorem on_date_schedules_witness :
    (parseInstruction ⟨[⟨"ACC-001", 5000, "NGN"⟩, ⟨"ACC-002", 1500, "NGN"⟩], "DEBIT 2000 NGN FROM ACCOUNT ACC-001 FOR CREDIT TO ACCOUNT ACC-002 ON 2030-05-05"⟩ "2025-01-01").1.status = "pending" ∧
    (parseInstruction ⟨[⟨"ACC-001", 5000, "NGN"⟩, ⟨"ACC-002", 1500, "NGN"⟩], "DEBIT 2000 NGN FROM ACCOUNT ACC-001 FOR CREDIT TO ACCOUNT ACC-002 ON 2030-05-05"⟩ "2025-01-01").1.status_code = some "AP02" ∧
    (parseInstruction ⟨[⟨"ACC-001", 5000, "NGN"⟩, ⟨"ACC-002", 1500, "NGN"⟩], "DEBIT 2000 NGN FROM ACCOUNT ACC-001 FOR CREDIT TO ACCOUNT ACC-002 ON 2030-05-05"⟩ "2025-01-01").2 =
      [⟨"ACC-001", 5000, "NGN"⟩, ⟨"ACC-002", 1500, "NGN"⟩] := by
  have h := on_date_schedules_or_executes
    ⟨[⟨"ACC-001", 5000, "NGN"⟩, ⟨"ACC-002", 1500, "NGN"⟩], "DEBIT 2000 NGN FROM ACCOUNT ACC-001 FOR CREDIT TO ACCOUNT ACC-002 ON 2030-05-05"⟩
    "2025-01-01" "2030-05-05"
    ⟨⟨some "DEBIT", some (.num 2000), some "NGN", some "ACC-001", some "ACC-002", some "2030-05-05", []⟩,
     ⟨"ACC-001", 5000, "NGN"⟩, ⟨"ACC-002", 1500, "NGN"⟩,
     [⟨"ACC-001", 5000, "NGN"⟩, ⟨"ACC-002", 1500, "NGN"⟩], .num 2000⟩
    rfl rfl
  exact h.1 (by decide)

/-- Claim C3 witness: a failing instruction leaves the account list exactly as
supplied. -/
theorem balances_mutated_only_on_success_witness :
    (parseInstruction ⟨[⟨"A", 10, "NGN"⟩], "NOT A VALID INSTRUCTION"⟩ "2025-01-01").2 =
      [⟨"A", 10, "NGN"⟩] :=
  (balances_mutated_only_on_success ⟨[⟨"A", 10, "NGN"⟩], "NOT A VALID INSTRUCTION"⟩ "2025-01-01").1
    (Or.inr (by decide))

/-- Claim C9 witness: the same malformed instruction produces the identical
outcome under two different current dates. -/
theorem failed_outcome_date_independent_witness :
    parseInstruction ⟨[], "BOGUS"⟩ "1999-12-31" = parseInstruction ⟨[], "BOGUS"⟩ "2025-01-01" :=
  failed_outcome_date_independent ⟨[], "BOGUS"⟩ "2025-01-01" "1999-12-31" (by decide)

/-- Claim C10 witness: a lowercase CREDIT-shaped instruction with a trailing
ON and no date token fails with DT01 and leaves balances untouched. -/
theorem missing_date_token_fails_witness :
    (parseInstruction ⟨[⟨"A", 500, "NGN"⟩, ⟨"B", 0, "NGN"⟩], "credit 100 ngn to account B for debit from account A on"⟩ "2025-01-01").1.status = "failed" ∧
    (parseInstruction ⟨[⟨"A", 500, "NGN"⟩, ⟨"B", 0, "NGN"⟩], "credit 100 ngn to account B for debit from account A on"⟩ "2025-01-01").1.status_code = some "DT01" ∧
    (parseInstruction ⟨[⟨"A", 500, "NGN"⟩, ⟨"B", 0, "NGN"⟩], "credit 100 ngn to account B for debit from account A on"⟩ "2025-01-01").2 =
      [⟨"A", 500, "NGN"⟩, ⟨"B", 0, "NGN"⟩] :=
  missing_date_token_fails
    ⟨[⟨"A", 500, "NGN"⟩, ⟨"B", 0, "NGN"⟩], "credit 100 ngn to account B for debit from account A on"⟩
    "2025-01-01" "A" "ON"
    (by decide) (by decide) (by decide) (by decide) (by decide) (by decide)
    (by decide) (by decide) (by decide) (by decide) (by decide)

/-- Claim C4: the claim says every schema-valid input gets one of the thirteen
documented status codes, never absent. The code violates this: a 10-token
instruction matching the DEBIT skeleton makes isValidAccountId dereference the
undefined token 10; the caught TypeError has no errorCode, so the returned
status_code is undefined — absent, and outside the documented taxonomy. -/
theorem ten_token_instruction_undefined_status_code :
    (parseInstruction ⟨[], "DEBIT 100 NGN FROM ACCOUNT A FOR CREDIT TO ACCOUNT"⟩ "2025-01-01").1.status_code = none ∧
    (([("SY01" : String), "SY02", "SY03", "AM01", "CU01", "CU02", "AC01", "AC02", "AC03", "AC04",
        "DT01", "AP00", "AP02"].map some).contains
      (parseInstruction ⟨[], "DEBIT 100 NGN FROM ACCOUNT A FOR CREDIT TO ACCOUNT"⟩ "2025-01-01").1.status_code) = false := by
  decide

/-- Claim C5: the claim says every schema-valid input yields a well-formed
Outcome (status, status_code, status_reason, accounts) and no exception
escapes. The no-exception half holds (the model is total and the catch block
handles the internal TypeError), but on the 10-token crash path the returned
outcome's status_code is undefined rather than a string, so the outcome is
not well-formed in the documented sense. -/
theorem internal_type_error_outcome :
    (parseInstruction ⟨[⟨"B", 10, "USD"⟩], "DEBIT 50 USD FROM ACCOUNT B FOR CREDIT TO ACCOUNT"⟩ "2025-01-01").1.status = "failed" ∧
    (parseInstruction ⟨[⟨"B", 10, "USD"⟩, ⟨"C", 0, "USD"⟩], "DEBIT 50 USD FROM ACCOUNT B FOR CREDIT TO ACCOUNT"⟩ "2025-01-01").1.status_code = none := by
  decide

/-- Claim C6 counterexample: the spec example with swapped amount/currency
positions claims SY02, but positions 1 and 2 are unchecked free slots of the
skeleton, so the order check passes and the amount check fails first: the
actual status_code is AM01, not SY02. -/
theorem swapped_amount_currency_not_order_error :
    (parseInstruction ⟨[], "DEBIT NGN 2000 FROM ACCOUNT ACC-01 FOR CREDIT TO ACCOUNT ACC-02"⟩ "2025-01-01").1.status_code = some "AM01" ∧
    ((parseInstruction ⟨[], "DEBIT NGN 2000 FROM ACCOUNT ACC-01 FOR CREDIT TO ACCOUNT ACC-02"⟩ "2025-01-01").1.status_code == some "SY02") = false := by
  decide

/-- Claim C6 amended: for the swapped instruction the outcome is failed with
status_code AM01 for every account set and date — Number('NGN') is NaN, and
the amount check precedes the currency check. -/
theorem swapped_amount_currency_yields_amount_error (accs : List Account) (today : String) :
    (parseInstruction ⟨accs, "DEBIT NGN 2000 FROM ACCOUNT ACC-01 FOR CREDIT TO ACCOUNT ACC-02"⟩ today).1.status = "failed" ∧
    (parseInstruction ⟨accs, "DEBIT NGN 2000 FROM ACCOUNT ACC-01 FOR CREDIT TO ACCOUNT ACC-02"⟩ today).1.status_code = some "AM01" :=
  ⟨rfl, rfl⟩

/-- Claim C7 counterexample: on an unsupported-currency failure (CU02) the
response's currency field is null, not the uppercased token 2: the source
stores parsed.currency only after the CU02 check passes. -/
theorem unsupported_currency_echoes_null :
    (parseInstruction ⟨[], "DEBIT 2000 EUR FROM ACCOUNT A FOR CREDIT TO ACCOUNT B"⟩ "2025-01-01").1.status_code = some "CU02" ∧
    (parseInstruction ⟨[], "DEBIT 2000 EUR FROM ACCOUNT A FOR CREDIT TO ACCOUNT B"⟩ "2025-01-01").1.currency = none ∧
    ((parseInstruction ⟨[], "DEBIT 2000 EUR FROM ACCOUNT A FOR CREDIT TO ACCOUNT B"⟩ "2025-01-01").1.currency == some "EUR") = false := by
  decide

/-- Claim C7 amended: for every input that fails validation, the error
response's type, amount, currency, debit_account, credit_account and
execute_by fields are exactly the JavaScript x-or-null coercions of the
`parsed` accumulator at the moment of the throw, and that accumulator is
determined by the failing stage: structural failures (SY01/SY02/SY03) echo
nothing; AM01 and CU02 echo type, amount and both account ids but a null
currency (the currency is stored only after the supported-currency check — so
a CU02 response carries null, not the uppercased token 2); AC04, the internal
TypeError and DT01 additionally echo the currency but a null execute_by;
account-stage failures (AC03/CU01/AC02/AC01) echo the date-step output. In
particular an AM01 amount echo carries the numeric parse of token 1 only when
that parse is truthy; a parse of 0 or NaN is coerced to null. -/
theorem error_echo_amended (data : Input) (today : String) (err : JsError) (p : Parsed)
    (hvr : validateAndResolve data.accounts (splitData data.instruction) = .error (err, p)) :
    ((parseInstruction data today).1.type = jsOrNullStr p.type ∧
     (parseInstruction data today).1.amount = jsOrNullNum p.amount ∧
     (parseInstruction data today).1.currency = jsOrNullStr p.currency ∧
     (parseInstruction data today).1.debit_account = jsOrNullStr p.debit_account ∧
     (parseInstruction data today).1.credit_account = jsOrNullStr p.credit_account ∧
     (parseInstruction data today).1.execute_by = jsOrNullStr p.execute_by) ∧
    (((err = appError "SY01" ∨ err = appError "SY02" ∨ err = appError "SY03") ∧
        p = parsedInit) ∨
     ((err = appError "AM01" ∨ err = appError "CU02") ∧
        p = parsedWithAmount (normalizeFrom 0 (splitData data.instruction))) ∨
     ((err = appError "AC04" ∨ err = typeError ∨ err = appError "DT01") ∧
        p = parsedWithCurrency (normalizeFrom 0 (splitData data.instruction))) ∨
     ((err = appError "AC03" ∨ err = appError "CU01" ∨ err = appError "AC02" ∨
        err = appError "AC01") ∧
        dateCheck (normalizeFrom 0 (splitData data.instruction)) = .ok p)) := by
  constructor
  · rw [parseInstruction_error data today err p hvr]
    obtain ⟨f1, f2, f3, f4, f5, f6⟩ := catchResolve_fields data.accounts p
    exact ⟨congrArg jsOrNullStr f1, congrArg jsOrNullNum f2, congrArg jsOrNullStr f3,
           congrArg jsOrNullStr f4, congrArg jsOrNullStr f5, congrArg jsOrNullStr f6⟩
  · exact validateKeywords_error_inv data.accounts _ err p hvr

/-- Claim C7 amended witness: on the CU02 failure for an EUR instruction the
echoed currency is null while the truthy amount parse 2000 is echoed. -/
theorem error_echo_amended_witness :
    (parseInstruction ⟨[], "DEBIT 2000 EUR FROM ACCOUNT A FOR CREDIT TO ACCOUNT B"⟩ "2025-01-01").1.currency = none ∧
    (parseInstruction ⟨[], "DEBIT 2000 EUR FROM ACCOUNT A FOR CREDIT TO ACCOUNT B"⟩ "2025-01-01").1.amount = some (JSNum.num 2000) := by
  have h := error_echo_amended
    ⟨[], "DEBIT 2000 EUR FROM ACCOUNT A FOR CREDIT TO ACCOUNT B"⟩ "2025-01-01"
    (appError "CU02")
    (parsedWithAmount (normalizeFrom 0
      (splitData "DEBIT 2000 EUR FROM ACCOUNT A FOR CREDIT TO ACCOUNT B")))
    rfl
  exact ⟨(h.1.2.2.1).trans (by decide), (h.1.2.1).trans (by decide)⟩

/-- Claim C8 counterexample: a tab is whitespace but not a split point for the
implemented tokenizer, so two instructions with identical whitespace-separated
word sequences get different outcomes. -/
theorem tab_whitespace_changes_outcome :
    specWords "DEBIT\t2000 NGN FROM ACCOUNT ACC-001 FOR CREDIT TO ACCOUNT ACC-002" =
      specWords "DEBIT 2000 NGN FROM ACCOUNT ACC-001 FOR CREDIT TO ACCOUNT ACC-002" ∧
    ((parseInstruction ⟨[⟨"ACC-001", 5000, "NGN"⟩, ⟨"ACC-002", 1500, "NGN"⟩], "DEBIT\t2000 NGN FROM ACCOUNT ACC-001 FOR CREDIT TO ACCOUNT ACC-002"⟩ "2025-01-01").1.status ==
     (parseInstruction ⟨[⟨"ACC-001", 5000, "NGN"⟩, ⟨"ACC-002", 1500, "NGN"⟩], "DEBIT 2000 NGN FROM ACCOUNT ACC-001 FOR CREDIT TO ACCOUNT ACC-002"⟩ "2025-01-01").1.status) = false := by
  decide

/-- Claim C8 amended: the tokenizer splits on the space character only (not
all whitespace); the pipeline outcome is determined by the space-split token
sequence, so instructions with equal splitData results give equal outcomes. -/
theorem equal_space_tokens_equal_outcome (accs : List Account) (s1 s2 today : String)
    (h : splitData s1 = splitData s2) :
    parseInstruction ⟨accs, s1⟩ today = parseInstruction ⟨accs, s2⟩ today := by
  have key : ∀ s : String, parseInstruction ⟨accs, s⟩ today =
      (match parseCoreTokens accs (splitData s) today with
       | .ok r => r
       | .error (err, parsed) => (buildErrorResponse err (catchResolve accs parsed), accs)) :=
    fun s => rfl
  rw [key s1, key s2, h]

/-- Claim C8 amended witness: two strings with equal space-split tokens give
identical outcomes. -/
theorem equal_space_tokens_equal_outcome_witness :
    parseInstruction ⟨[], "A  B"⟩ "2025-01-01" = parseInstruction ⟨[], " A B "⟩ "2025-01-01" :=
  equal_space_tokens_equal_outcome [] "A  B" " A B " "2025-01-01" (by decide)

end PaymentParser
